import Mathlib

/-!
Verification of the Status Registry & Latency Classification Engine of
`slmon2.py` (SeisComP slmon web monitor).  The definitions below are a
shallow embedding of the Python source: each `def` mirrors one Python
function or code block, with Python floats modelled as `ℚ`, Python
`datetime` values as an explicit record of calendar fields, Python dicts
as insertion-ordered association lists, and exception paths as `Option`.
-/

namespace Slmon

/-! ## Latency classifier

Embedding of `get_status_from_seconds(seconds, channel_type=None)`
(slmon2.py lines 389-452).  The Python default argument `None` is passed
explicitly as `none`; the if/elif chain is reproduced branch for branch.
-/

def get_status_from_seconds (seconds : ℚ) (channel_type : Option String) : String :=
  if channel_type = some "LH" then
    -- lenient thresholds for LH channels
    if seconds > 604800 then "unavailable"
    else if seconds > 518400 then "four-day"
    else if seconds > 432000 then "three-day"
    else if seconds > 345600 then "multi-day"
    else if seconds > 259200 then "day-delayed"
    else if seconds > 86400 then "critical"
    else if seconds > 43200 then "warning"
    else if seconds > 21600 then "hour-delayed"
    else if seconds > 10800 then "very-delayed"
    else if seconds > 3600 then "long-delayed"
    else if seconds > 1800 then "delayed"
    else "good"
  else
    -- standard thresholds for other channels
    if seconds > 432000 then "unavailable"
    else if seconds > 345600 then "four-day"
    else if seconds > 259200 then "three-day"
    else if seconds > 172800 then "multi-day"
    else if seconds > 86400 then "day-delayed"
    else if seconds > 21600 then "critical"
    else if seconds > 7200 then "warning"
    else if seconds > 3600 then "hour-delayed"
    else if seconds > 1800 then "very-delayed"
    else if seconds > 600 then "long-delayed"
    else if seconds > 60 then "delayed"
    else "good"

/-- Rank of a status string in the `StatusLevel` order of spec §4.1:
`good < delayed < long-delayed < very-delayed < hour-delayed < warning <
critical < day-delayed < multi-day < three-day < four-day < unavailable`.
Strings outside the vocabulary rank above everything. -/
def statusRank (s : String) : Nat :=
  if s = "good" then 0
  else if s = "delayed" then 1
  else if s = "long-delayed" then 2
  else if s = "very-delayed" then 3
  else if s = "hour-delayed" then 4
  else if s = "warning" then 5
  else if s = "critical" then 6
  else if s = "day-delayed" then 7
  else if s = "multi-day" then 8
  else if s = "three-day" then 9
  else if s = "four-day" then 10
  else if s = "unavailable" then 11
  else 12

/-! ### Proof infrastructure: a threshold if/elif chain as a fold

`ladder L d s` walks the list of `(threshold, name)` pairs and returns
the first name whose threshold is exceeded, else the default `d`.  Both
branches of `get_status_from_seconds` are definitionally such ladders.
-/

def ladder : List (ℚ × String) → String → ℚ → String
  | [], dflt, _ => dflt
  | (t, n) :: rest, dflt, s => if s > t then n else ladder rest dflt s

/-! ## Timestamps

Python `datetime.datetime` values, modelled by their calendar fields.
-/

structure PyDateTime where
  year : Nat
  month : Nat
  day : Nat
  hour : Nat
  minute : Nat
  second : Nat
  microsecond : Nat
deriving DecidableEq

/-- Python `datetime` comparison `a < b`: lexicographic on the calendar
fields, most significant first. -/
def dtLtB (a b : PyDateTime) : Bool :=
  if a.year ≠ b.year then decide (a.year < b.year)
  else if a.month ≠ b.month then decide (a.month < b.month)
  else if a.day ≠ b.day then decide (a.day < b.day)
  else if a.hour ≠ b.hour then decide (a.hour < b.hour)
  else if a.minute ≠ b.minute then decide (a.minute < b.minute)
  else if a.second ≠ b.second then decide (a.second < b.second)
  else decide (a.microsecond < b.microsecond)

def pad2 (n : Nat) : String :=
  String.mk [Nat.digitChar (n / 10 % 10), Nat.digitChar (n % 10)]

def pad4 (n : Nat) : String :=
  String.mk [Nat.digitChar (n / 1000 % 10), Nat.digitChar (n / 100 % 10),
    Nat.digitChar (n / 10 % 10), Nat.digitChar (n % 10)]

def pad6 (n : Nat) : String :=
  String.mk [Nat.digitChar (n / 100000 % 10), Nat.digitChar (n / 10000 % 10),
    Nat.digitChar (n / 1000 % 10), Nat.digitChar (n / 100 % 10),
    Nat.digitChar (n / 10 % 10), Nat.digitChar (n % 10)]

/-- CPython `datetime.isoformat(sep)`: `YYYY-MM-DD<sep>HH:MM:SS`, with
`.ffffff` appended only when the microsecond field is nonzero.
`str(datetime)` is `isoformat(sep=' ')`; `datetime.isoformat()` defaults
to `sep='T'`. -/
def pyDateTimeStrSep (sep : Char) (t : PyDateTime) : String :=
  pad4 t.year ++ "-" ++ pad2 t.month ++ "-" ++ pad2 t.day ++ String.singleton sep ++
    pad2 t.hour ++ ":" ++ pad2 t.minute ++ ":" ++ pad2 t.second ++
    (if t.microsecond = 0 then "" else "." ++ pad6 t.microsecond)

def pyDateTimeStr : PyDateTime → String := pyDateTimeStrSep ' '

def pyIsoformat : PyDateTime → String := pyDateTimeStrSep 'T'

/-! ## Character-list utilities for the fixed-width dump format -/

/-- Python slice `l[a:b]`. -/
def pySlice (l : List Char) (a b : Nat) : List Char := (l.drop a).take (b - a)

def lstripWs : List Char → List Char
  | [] => []
  | c :: cs => if c.isWhitespace then lstripWs cs else c :: cs

/-- Python `.strip()`: remove leading and trailing whitespace. -/
def stripWs (l : List Char) : List Char := (lstripWs (lstripWs l.reverse).reverse)

def lstripNl : List Char → List Char
  | [] => []
  | c :: cs => if c = '\n' ∨ c = '\r' then lstripNl cs else c :: cs

/-- Python `.rstrip('\n\r')`. -/
def rstripNl (l : List Char) : List Char := (lstripNl l.reverse).reverse

def digitsToNat (l : List Char) : Nat :=
  l.foldl (fun acc c => 10 * acc + (c.toNat - 48)) 0

/-- Modelled from the spec: `seiscomp.slclient.timeparse` belongs to the
external SeisComP client library and its source is not part of this
repository; spec §4.2 and §6 describe the dump timestamps as "ISO-ish"
parsed at 1-second resolution.  This model strips surrounding whitespace,
accepts `YYYY-MM-DD HH:MM:SS` optionally followed by `.` plus fractional
digits, truncates to whole seconds, and fails — Python raises, callers
catch — on anything else (`none`). -/
def timeparse (cs : List Char) : Option PyDateTime :=
  let t := stripWs cs
  if t.length < 19 then none
  else
    let digitsOk := (pySlice t 0 4 ++ pySlice t 5 7 ++ pySlice t 8 10 ++
      pySlice t 11 13 ++ pySlice t 14 16 ++ pySlice t 17 19).all Char.isDigit
    let sepsOk := t.getD 4 ' ' == '-' && t.getD 7 ' ' == '-' &&
      t.getD 10 ' ' == ' ' && t.getD 13 ' ' == ':' && t.getD 16 ' ' == ':'
    let fracOk := match t.drop 19 with
      | [] => true
      | c :: rest => c == '.' && !rest.isEmpty && rest.all Char.isDigit
    if digitsOk && sepsOk && fracOk then
      some ⟨digitsToNat (pySlice t 0 4), digitsToNat (pySlice t 5 7),
        digitsToNat (pySlice t 8 10), digitsToNat (pySlice t 11 13),
        digitsToNat (pySlice t 14 16), digitsToNat (pySlice t 17 19), 0⟩
    else none

/-! ## Status records and the registry (`Status`, `StatusDict`) -/

/-- The `Status` object of slmon2.py (lines 113-117): per-channel state.
`typ` is the single character `line[16]`. -/
structure Status where
  net : String
  sta : String
  loc : String
  cha : String
  typ : Char
  last_data : Option PyDateTime
  last_feed : Option PyDateTime
deriving DecidableEq

/-- Python `"%2s"` formatting: pad on the left to the minimum width. -/
def rightAlign (n : Nat) (s : String) : String :=
  String.mk (List.replicate (n - s.length) ' ') ++ s

/-- Python `"%-5s"` formatting: pad on the right to the minimum width. -/
def leftAlign (n : Nat) (s : String) : String :=
  s ++ String.mk (List.replicate (n - s.length) ' ')

def optDtStr : Option PyDateTime → String
  | none => "None"
  | some t => pyDateTimeStr t

/-- `Status.__repr__`:
`"%2s %-5s %2s %3s %1s %s %s" % (net, sta, loc, cha, typ, str(last_data), str(last_feed))`. -/
def statusRepr (d : Status) : String :=
  rightAlign 2 d.net ++ " " ++ leftAlign 5 d.sta ++ " " ++ rightAlign 2 d.loc ++ " " ++
    rightAlign 3 d.cha ++ " " ++ rightAlign 1 (String.singleton d.typ) ++ " " ++
    optDtStr d.last_data ++ " " ++ optDtStr d.last_feed

/-- `StatusDict` is a Python dict: an insertion-ordered map from the
channel key string to its `Status`. -/
abbrev Registry := List (String × Status)

def dictGet (m : Registry) (k : String) : Option Status :=
  (m.find? fun p => p.1 == k).map Prod.snd

/-- `self[sec] = d`: replace in place if the key exists, else append. -/
def dictSet (m : Registry) (k : String) (v : Status) : Registry :=
  if m.any (fun p => p.1 == k) then
    m.map fun p => if p.1 == k then (k, v) else p
  else m ++ [(k, v)]

/-- The key built by `StatusDict.read` (line 208):
`f"{d.net}_{d.sta}:{d.loc}.{d.cha}.{d.typ}"`. -/
def statusKey (d : Status) : String :=
  d.net ++ "_" ++ d.sta ++ ":" ++ d.loc ++ "." ++ d.cha ++ "." ++ String.singleton d.typ

/-- The field/slice parsing of one `StatusDict.read` line (lines 184-209,
applied only to lines of at least 65 characters): slice the fixed-width
fields, parse both timestamps tolerantly (a parse failure leaves the
field `None`), clamp `last_feed` to `last_data`
(`if d.last_feed and d.last_data and d.last_feed < d.last_data`), and
produce the key/record pair to store. -/
def parseFields (l : List Char) : String × Status :=
  let net := String.mk (stripWs (pySlice l 0 2))
  let sta := String.mk (stripWs (pySlice l 3 8))
  let loc := String.mk (stripWs (pySlice l 9 11))
  let cha := String.mk (stripWs (pySlice l 12 15))
  let typ := (l.drop 16).headD ' '
  let ld := timeparse (pySlice l 18 41)
  let lf := timeparse (pySlice l 42 65)
  let lf2 := match lf, ld with
    | some f, some dd => if dtLtB f dd then some dd else some f
    | _, _ => lf
  let d : Status := ⟨net, sta, loc, cha, typ, ld, lf2⟩
  (statusKey d, d)

/-- One iteration of the `StatusDict.read` loop (lines 177-209): rstrip
newline characters, skip lines shorter than 65 characters, else parse the
fixed-width fields. -/
def parseLine (line : String) : Option (String × Status) :=
  let l := rstripNl line.data
  if l.length < 65 then none
  else some (parseFields l)

/-- `StatusDict.read` over a list of lines, updating the dict in place. -/
def statusDictRead (m : Registry) (lines : List String) : Registry :=
  lines.foldl (fun acc line =>
    match parseLine line with
    | none => acc
    | some (k, d) => dictSet acc k d) m

def charsLtB : List Char → List Char → Bool
  | _, [] => false
  | [], _ :: _ => true
  | a :: as, b :: bs => if a < b then true else if b < a then false else charsLtB as bs

/-- Python string comparison (lexicographic on code points). -/
def strLtB (a b : String) : Bool := charsLtB a.data b.data

def insertSorted (x : String) : List String → List String
  | [] => [x]
  | y :: ys => if strLtB y x then y :: insertSorted x ys else x :: y :: ys

/-- Python `sorted` on strings, ascending. -/
def sortStrings (l : List String) : List String := l.foldr insertSorted []

/-- `StatusDict.write` (lines 211-229): one `repr` line per entry, in
sorted key order.  The result is the list of written lines. -/
def statusDictWrite (m : Registry) : List String :=
  (sortStrings (m.map Prod.fst)).filterMap fun k => (dictGet m k).map statusRepr

/-! ## The ingestion loop (`main`, lines 3658-3665) -/

/-- One record from the SeedLink feed iterator. -/
structure FeedRecord where
  net : String
  sta : String
  loc : String
  cha : String
  rectype : String
  end_time : PyDateTime

/-- `id = '.'.join([rec.net, rec.sta, rec.loc, rec.cha, rec.rectype])`. -/
def feedId (rec : FeedRecord) : String :=
  rec.net ++ "." ++ rec.sta ++ "." ++ rec.loc ++ "." ++ rec.cha ++ "." ++ rec.rectype

/-- One iteration of the ingestion loop:
`status[id].last_data = rec.end_time; status[id].last_feed = datetime.utcnow()`
inside `try/except: continue` — a missing key raises `KeyError` before
any assignment, so the registry is left unchanged.  The wall clock
`datetime.utcnow()` is the explicit `now` parameter. -/
def ingestStep (reg : Registry) (rec : FeedRecord) (now : PyDateTime) : Registry :=
  match dictGet reg (feedId rec) with
  | none => reg
  | some d =>
      dictSet reg (feedId rec) { d with last_data := some rec.end_time, last_feed := some now }

/-- The §3 clamp invariant for one record: `lastReceivedTime` (feed) is
never strictly earlier than `lastSampleTime` (data) when both exist. -/
def feedNotEarlierB (d : Status) : Bool :=
  match d.last_feed, d.last_data with
  | some f, some dd => !(dtLtB f dd)
  | _, _ => true

/-! ## The snapshot document (`StatusDict.to_json`, lines 231-334)

Latency needs `now - value.last_data` on `datetime` values; Python's
subtraction works on the proleptic Gregorian calendar, reproduced here via
`date.toordinal`.
-/

def isLeapB (y : Nat) : Bool := y % 4 == 0 && (y % 100 != 0 || y % 400 == 0)

/-- Cumulative days before month `m` (1-based) in a non-leap year. -/
def cumDays (m : Nat) : Nat :=
  [0, 31, 59, 90, 120, 151, 181, 212, 243, 273, 304, 334].getD (m - 1) 0

/-- Python `date(y, m, d).toordinal()`: day count in the proleptic
Gregorian calendar with day 1 = 0001-01-01. -/
def toOrdinal (y m d : Nat) : Nat :=
  365 * (y - 1) + (y - 1) / 4 - (y - 1) / 100 + (y - 1) / 400 +
    cumDays m + (if 2 < m && isLeapB y then 1 else 0) + d

/-- A `datetime` as exact seconds on the proleptic Gregorian time line;
differences of this quantity are exactly Python's `datetime` subtraction
expressed in seconds. -/
def dtToSeconds (t : PyDateTime) : ℚ :=
  (toOrdinal t.year t.month t.day : ℚ) * 86400 + t.hour * 3600 +
    t.minute * 60 + t.second + (t.microsecond : ℚ) / 1000000

/-- `total_seconds(now - value.last_data)` (lines 259-261 and 471-472):
Python normalizes the `timedelta` to `(days, seconds, microseconds)` with
`0 ≤ seconds < 86400` and `0 ≤ microseconds < 10^6`, and
`total_seconds(td) = td.seconds + td.days*86400` drops the microseconds —
i.e. the floor of the exact difference in seconds. -/
def latencySecondsFrom (now ld : PyDateTime) : ℚ :=
  (⌊dtToSeconds now - dtToSeconds ld⌋ : ℤ)

/-- JSON scalar values appearing in the snapshot document. -/
inductive JVal where
  | str : String → JVal
  | num : ℚ → JVal
  | null : JVal
deriving DecidableEq

/-- The per-channel object built at lines 270-279 of `to_json`. -/
structure ChannelData where
  location : String
  channel : String
  type : String
  channelType : String
  last_data : Option String
  last_feed : Option String
  latency : ℚ
  status : String
deriving DecidableEq

/-- The per-channel JSON object as an ordered field list — Python dict
literals preserve the key order of lines 270-279. -/
def channelAssoc (c : ChannelData) : List (String × JVal) :=
  [("location", .str c.location),
   ("channel", .str c.channel),
   ("type", .str c.type),
   ("channelType", .str c.channelType),
   ("last_data", match c.last_data with | some s => .str s | none => .null),
   ("last_feed", match c.last_feed with | some s => .str s | none => .null),
   ("latency", .num c.latency),
   ("status", .str c.status)]

/-- `value.cha[:2] if len(value.cha) >= 2 else "other"` (line 264). -/
def channelTypeOf (v : Status) : String :=
  if 2 ≤ v.cha.length then String.mk (v.cha.data.take 2) else "other"

/-- Lines 258-279: latency from `last_data` (whose presence the caller
has already forced — `now - None` raises), channel-aware status, and the
channel object. -/
def mkChannelData (v : Status) (ld : PyDateTime) (now : PyDateTime) : ChannelData :=
  let latency_seconds := latencySecondsFrom now ld
  let channel_type := channelTypeOf v
  { location := v.loc,
    channel := v.cha,
    type := String.singleton v.typ,
    channelType := channel_type,
    last_data := some (pyIsoformat ld),
    last_feed := match v.last_feed with | some f => some (pyIsoformat f) | none => none,
    latency := latency_seconds,
    status := get_status_from_seconds latency_seconds (some channel_type) }

/-- The per-station accumulator built in the first loop of `to_json`
(lines 237-288): channels in arrival order plus the six class buckets. -/
structure StationData where
  network : String
  station : String
  channels : List ChannelData
  hh : List ChannelData
  bh : List ChannelData
  lh : List ChannelData
  sh : List ChannelData
  eh : List ChannelData
  other : List ChannelData
  coordinates : Option JVal
deriving DecidableEq

/-- Lines 240-256: the fresh `stations_data[net_sta]` entry, with
coordinates when the `station_coordinates` global knows the station. -/
def newStationData (v : Status) (coords : List (String × JVal)) (net_sta : String) :
    StationData :=
  { network := v.net, station := v.sta, channels := [],
    hh := [], bh := [], lh := [], sh := [], eh := [], other := [],
    coordinates := (coords.find? fun p => p.1 == net_sta).map Prod.snd }

/-- Lines 284-288: file the channel object under its class bucket when
the class is one of the six keys, else under `"other"`. -/
def addToGroup (sd : StationData) (ct : String) (cd : ChannelData) : StationData :=
  if ct = "HH" then { sd with hh := sd.hh ++ [cd] }
  else if ct = "BH" then { sd with bh := sd.bh ++ [cd] }
  else if ct = "LH" then { sd with lh := sd.lh ++ [cd] }
  else if ct = "SH" then { sd with sh := sd.sh ++ [cd] }
  else if ct = "EH" then { sd with eh := sd.eh ++ [cd] }
  else { sd with other := sd.other ++ [cd] }

/-- In-place update of the insertion-ordered `stations_data` map. -/
def stationsSet (acc : List (String × StationData)) (k : String)
    (f : StationData → StationData) : List (String × StationData) :=
  acc.map fun p => if p.1 == k then (k, f p.2) else p

/-- One iteration of the first `to_json` loop for a record whose
`last_data` is present: get-or-create the station entry, then append the
channel object to `channels` and to its class bucket. -/
def addRecord (coords : List (String × JVal)) (now : PyDateTime)
    (acc : List (String × StationData)) (v : Status) (ld : PyDateTime) :
    List (String × StationData) :=
  let net_sta := v.net ++ "_" ++ v.sta
  let acc1 := if acc.any (fun p => p.1 == net_sta) then acc
    else acc ++ [(net_sta, newStationData v coords net_sta)]
  let cd := mkChannelData v ld now
  stationsSet acc1 net_sta fun sd =>
    addToGroup { sd with channels := sd.channels ++ [cd] } cd.channelType cd

/-- The first `to_json` loop over the registry in insertion order.
`none` models the `TypeError` that `now - value.last_data` raises when a
record has no `last_data`. -/
def buildStations (coords : List (String × JVal)) (now : PyDateTime) :
    Registry → List (String × StationData) → Option (List (String × StationData))
  | [], acc => some acc
  | (_, v) :: rest, acc =>
    match v.last_data with
    | none => none
    | some ld => buildStations coords now rest (addRecord coords now acc v ld)

/-- Python `max` over a list of floats; the empty case is unreachable in
the source (guarded by the bucket-nonempty checks). -/
def listMax : List ℚ → ℚ
  | [] => 0
  | x :: xs => xs.foldl max x

/-- One element of the final `stations_list`. -/
structure StationOut where
  network : String
  station : String
  channels : List ChannelData
  hh : List ChannelData
  bh : List ChannelData
  lh : List ChannelData
  sh : List ChannelData
  eh : List ChannelData
  other : List ChannelData
  coordinates : Option JVal
  status : String
  primaryChannelType : String
  latency : ℚ
  id : String
deriving DecidableEq

/-- The second `to_json` loop body (lines 292-332): pick the primary
bucket in the fixed order HH, BH, SH, EH, LH, other; worst latency in the
bucket; classify it (`"LH"` passed only for the LH bucket); failsafe for
a station with no channels. -/
def finalizeStation (net_sta : String) (d : StationData) : StationOut :=
  let base := fun (st : String) (pct : String) (worst : ℚ) =>
    ({ network := d.network, station := d.station, channels := d.channels,
       hh := d.hh, bh := d.bh, lh := d.lh, sh := d.sh, eh := d.eh,
       other := d.other, coordinates := d.coordinates, status := st,
       primaryChannelType := pct, latency := worst, id := net_sta } : StationOut)
  if d.hh ≠ [] then
    let worst := listMax (d.hh.map fun c => c.latency)
    base (get_status_from_seconds worst none) "HH" worst
  else if d.bh ≠ [] then
    let worst := listMax (d.bh.map fun c => c.latency)
    base (get_status_from_seconds worst none) "BH" worst
  else if d.sh ≠ [] then
    let worst := listMax (d.sh.map fun c => c.latency)
    base (get_status_from_seconds worst none) "SH" worst
  else if d.eh ≠ [] then
    let worst := listMax (d.eh.map fun c => c.latency)
    base (get_status_from_seconds worst none) "EH" worst
  else if d.lh ≠ [] then
    let worst := listMax (d.lh.map fun c => c.latency)
    base (get_status_from_seconds worst (some "LH")) "LH" worst
  else if d.other ≠ [] then
    let worst := listMax (d.other.map fun c => c.latency)
    base (get_status_from_seconds worst none) "other" worst
  else
    base "unavailable" "none" 0

/-- `StatusDict.to_json`: the list of station objects of the snapshot
document (the final `json.dumps` serialization is not modelled). -/
def to_json (coords : List (String × JVal)) (now : PyDateTime) (reg : Registry) :
    Option (List StationOut) :=
  (buildStations coords now reg []).map fun l => l.map fun p => finalizeStation p.1 p.2

/-! ## Concrete evaluation inputs used by counterexamples and witnesses -/

/-- A station with one HH and one LH channel; the LH channel is 2140
seconds behind, the HH channel 100 seconds. -/
def sampleReg : Registry :=
  [("AU_ARMA:.HHZ.D",
    ⟨"AU", "ARMA", "", "HHZ", 'D', some ⟨2024, 1, 2, 3, 4, 5, 0⟩, some ⟨2024, 1, 2, 3, 4, 6, 0⟩⟩),
   ("AU_ARMA:.LHZ.D",
    ⟨"AU", "ARMA", "", "LHZ", 'D', some ⟨2024, 1, 2, 2, 30, 5, 0⟩, some ⟨2024, 1, 2, 2, 30, 6, 0⟩⟩)]

def sampleNow : PyDateTime := ⟨2024, 1, 2, 3, 5, 45, 0⟩

def sampleSts : List StationOut := (to_json [] sampleNow sampleReg).getD []

/-- A registry whose timestamps have zero microseconds, so that
`str(datetime)` is 19 characters wide and the `repr` line is 57 < 65
characters long. -/
def secondResReg : Registry :=
  [("AU_ARMA:.BHZ.D",
    ⟨"AU", "ARMA", "", "BHZ", 'D', some ⟨2024, 1, 2, 3, 4, 5, 0⟩, some ⟨2024, 1, 2, 3, 4, 6, 0⟩⟩)]

/-- A 65-character dump line whose feed timestamp precedes its data
timestamp, exercising the read-side clamp. -/
def clampLine : String :=
  "AU ARMA     BHZ D 2024-01-02 03:04:05.000 2024-01-02 03:04:04.000"

/-- A 65-character line whose timestamp slices are unparsable. -/
def junkLine : String :=
  "AU ARMA     BHZ D XXXXXXXXXXXXXXXXXXXXXXX XXXXXXXXXXXXXXXXXXXXXXX"

theorem lad_gt {t : ℚ} {n : String} {rest : List (ℚ × String)} {d : String} {s : ℚ}
    (h : t < s) : ladder ((t, n) :: rest) d s = n := by
  simp [ladder, h]

theorem lad_le {t : ℚ} {n : String} {rest : List (ℚ × String)} {d : String} {s : ℚ}
    (h : s ≤ t) : ladder ((t, n) :: rest) d s = ladder rest d s := by
  simp [ladder, not_lt.mpr h]

theorem get_status_eq_lh (s : ℚ) :
    get_status_from_seconds s (some "LH") =
      ladder [(604800, "unavailable"), (518400, "four-day"), (432000, "three-day"),
              (345600, "multi-day"), (259200, "day-delayed"), (86400, "critical"),
              (43200, "warning"), (21600, "hour-delayed"), (10800, "very-delayed"),
              (3600, "long-delayed"), (1800, "delayed")] "good" s := rfl

theorem get_status_eq_other (s : ℚ) (c : Option String) (hc : c ≠ some "LH") :
    get_status_from_seconds s c =
      ladder [(432000, "unavailable"), (345600, "four-day"), (259200, "three-day"),
              (172800, "multi-day"), (86400, "day-delayed"), (21600, "critical"),
              (7200, "warning"), (3600, "hour-delayed"), (1800, "very-delayed"),
              (600, "long-delayed"), (60, "delayed")] "good" s := by
  unfold get_status_from_seconds
  rw [if_neg hc]
  rfl

/-- A ladder whose names all rank at most `B` (default included) only
produces statuses ranking at most `B`. -/
theorem ladder_rank_le (L : List (ℚ × String)) (d : String) (s : ℚ) (B : Nat)
    (hB : ∀ p ∈ L, statusRank p.2 ≤ B) (hd : statusRank d ≤ B) :
    statusRank (ladder L d s) ≤ B := by
  induction L with
  | nil => exact hd
  | cons p rest ih =>
    obtain ⟨t, n⟩ := p
    simp only [ladder]
    split_ifs with h
    · exact hB (t, n) (List.mem_cons_self _ _)
    · exact ih fun q hq => hB q (List.mem_cons_of_mem _ hq)

/-- Bool check that a ladder's names weakly decrease in `statusRank` as
the chain descends (each tail name and the default rank at most the head
name). -/
def chainDescB : List (ℚ × String) → String → Bool
  | [], _ => true
  | (_, n) :: rest, d =>
    rest.all (fun p => statusRank p.2 ≤ statusRank n) &&
      (decide (statusRank d ≤ statusRank n)) && chainDescB rest d

/-- A rank-descending ladder is monotone in the elapsed seconds. -/
theorem ladder_mono (L : List (ℚ × String)) (d : String)
    (hdesc : chainDescB L d = true) (s1 s2 : ℚ) (h : s1 ≤ s2) :
    statusRank (ladder L d s1) ≤ statusRank (ladder L d s2) := by
  induction L with
  | nil => simp [ladder]
  | cons p rest ih =>
    obtain ⟨t, n⟩ := p
    simp only [chainDescB, Bool.and_eq_true, List.all_eq_true,
      decide_eq_true_eq] at hdesc
    obtain ⟨⟨hb, hbd⟩, hrest⟩ := hdesc
    simp only [ladder]
    split_ifs with h1 h2
    · exact le_refl _
    · exact absurd (lt_of_lt_of_le h1 h) h2
    · exact ladder_rank_le rest d s1 (statusRank n)
        (fun q hq => hb q hq) hbd
    · exact ih hrest

/-! ## Claims C1-C4: the classifier -/

/-- C1 counterexample: the lenient (LH) ladder of the spec predicts
`multi-day` at 300000 seconds (since 259200 < 300000 ≤ 345600), but the
code returns `day-delayed` there. -/
theorem lh_ladder_counterexample :
    get_status_from_seconds 300000 (some "LH") = "day-delayed" ∧
    get_status_from_seconds 300000 (some "LH") ≠ "multi-day" := by
  decide

/-- C1 (amended): the actual lenient ladder of `get_status_from_seconds`
for `channelClass = "LH"`: ≤1800 good, ≤3600 delayed, ≤10800 long-delayed,
≤21600 very-delayed, ≤43200 hour-delayed, ≤86400 warning, ≤259200 critical,
≤345600 day-delayed, ≤432000 multi-day, ≤518400 three-day, ≤604800
four-day, and unavailable above 604800. -/
theorem lh_ladder_amended (s : ℚ) (h0 : 0 ≤ s) :
    (s ≤ 1800 → get_status_from_seconds s (some "LH") = "good") ∧
    (1800 < s → s ≤ 3600 → get_status_from_seconds s (some "LH") = "delayed") ∧
    (3600 < s → s ≤ 10800 → get_status_from_seconds s (some "LH") = "long-delayed") ∧
    (10800 < s → s ≤ 21600 → get_status_from_seconds s (some "LH") = "very-delayed") ∧
    (21600 < s → s ≤ 43200 → get_status_from_seconds s (some "LH") = "hour-delayed") ∧
    (43200 < s → s ≤ 86400 → get_status_from_seconds s (some "LH") = "warning") ∧
    (86400 < s → s ≤ 259200 → get_status_from_seconds s (some "LH") = "critical") ∧
    (259200 < s → s ≤ 345600 → get_status_from_seconds s (some "LH") = "day-delayed") ∧
    (345600 < s → s ≤ 432000 → get_status_from_seconds s (some "LH") = "multi-day") ∧
    (432000 < s → s ≤ 518400 → get_status_from_seconds s (some "LH") = "three-day") ∧
    (518400 < s → s ≤ 604800 → get_status_from_seconds s (some "LH") = "four-day") ∧
    (604800 < s → get_status_from_seconds s (some "LH") = "unavailable") := by
  refine ⟨fun h => ?_, fun h1 h2 => ?_, fun h1 h2 => ?_, fun h1 h2 => ?_,
    fun h1 h2 => ?_, fun h1 h2 => ?_, fun h1 h2 => ?_, fun h1 h2 => ?_,
    fun h1 h2 => ?_, fun h1 h2 => ?_, fun h1 h2 => ?_, fun h1 => ?_⟩
  · rw [get_status_eq_lh, lad_le (h.trans (by decide)), lad_le (h.trans (by decide)),
      lad_le (h.trans (by decide)), lad_le (h.trans (by decide)),
      lad_le (h.trans (by decide)), lad_le (h.trans (by decide)),
      lad_le (h.trans (by decide)), lad_le (h.trans (by decide)),
      lad_le (h.trans (by decide)), lad_le (h.trans (by decide)), lad_le h]
    rfl
  · rw [get_status_eq_lh, lad_le (h2.trans (by decide)), lad_le (h2.trans (by decide)),
      lad_le (h2.trans (by decide)), lad_le (h2.trans (by decide)),
      lad_le (h2.trans (by decide)), lad_le (h2.trans (by decide)),
      lad_le (h2.trans (by decide)), lad_le (h2.trans (by decide)),
      lad_le (h2.trans (by decide)), lad_le h2, lad_gt h1]
  · rw [get_status_eq_lh, lad_le (h2.trans (by decide)), lad_le (h2.trans (by decide)),
      lad_le (h2.trans (by decide)), lad_le (h2.trans (by decide)),
      lad_le (h2.trans (by decide)), lad_le (h2.trans (by decide)),
      lad_le (h2.trans (by decide)), lad_le (h2.trans (by decide)),
      lad_le h2, lad_gt h1]
  · rw [get_status_eq_lh, lad_le (h2.trans (by decide)), lad_le (h2.trans (by decide)),
      lad_le (h2.trans (by decide)), lad_le (h2.trans (by decide)),
      lad_le (h2.trans (by decide)), lad_le (h2.trans (by decide)),
      lad_le (h2.trans (by decide)), lad_le h2, lad_gt h1]
  · rw [get_status_eq_lh, lad_le (h2.trans (by decide)), lad_le (h2.trans (by decide)),
      lad_le (h2.trans (by decide)), lad_le (h2.trans (by decide)),
      lad_le (h2.trans (by decide)), lad_le (h2.trans (by decide)),
      lad_le h2, lad_gt h1]
  · rw [get_status_eq_lh, lad_le (h2.trans (by decide)), lad_le (h2.trans (by decide)),
      lad_le (h2.trans (by decide)), lad_le (h2.trans (by decide)),
      lad_le (h2.trans (by decide)), lad_le h2, lad_gt h1]
  · rw [get_status_eq_lh, lad_le (h2.trans (by decide)), lad_le (h2.trans (by decide)),
      lad_le (h2.trans (by decide)), lad_le (h2.trans (by decide)),
      lad_le h2, lad_gt h1]
  · rw [get_status_eq_lh, lad_le (h2.trans (by decide)), lad_le (h2.trans (by decide)),
      lad_le (h2.trans (by decide)), lad_le h2, lad_gt h1]
  · rw [get_status_eq_lh, lad_le (h2.trans (by decide)), lad_le (h2.trans (by decide)),
      lad_le h2, lad_gt h1]
  · rw [get_status_eq_lh, lad_le (h2.trans (by decide)), lad_le h2, lad_gt h1]
  · rw [get_status_eq_lh, lad_le h2, lad_gt h1]
  · rw [get_status_eq_lh, lad_gt h1]

theorem lh_ladder_amended_witness :
    (0 : ℚ) ≤ 300000 ∧ get_status_from_seconds 300000 (some "LH") = "day-delayed" :=
  ⟨by norm_num,
   (lh_ladder_amended 300000 (by norm_num)).2.2.2.2.2.2.2.1 (by norm_num) (by norm_num)⟩

/-- C2 counterexample: the §8 boundary test demands
`classify(21600, "BH") == critical`, but the code (following the §4.1
standard ladder, where ≤21600 is `warning`) returns `warning`. -/
theorem boundary_test_counterexample :
    get_status_from_seconds 21600 (some "BH") = "warning" ∧
    get_status_from_seconds 21600 (some "BH") ≠ "critical" := by
  decide

/-- C2 (amended): the actual boundary behaviour: `classify(60, "BH") =
good`, `classify(61, "BH") = delayed`, `classify(21600, "BH") = warning`
and `classify(21601, "BH") = critical` (the §8 test has warning/critical
swapped at the 21600 boundary). -/
theorem boundary_test_amended :
    get_status_from_seconds 60 (some "BH") = "good" ∧
    get_status_from_seconds 61 (some "BH") = "delayed" ∧
    get_status_from_seconds 21600 (some "BH") = "warning" ∧
    get_status_from_seconds 21601 (some "BH") = "critical" := by
  decide

/-- C3: for every channel class other than `"LH"` the classifier follows
exactly the standard ladder of spec §4.1: ≤60 good, ≤600 delayed, ≤1800
long-delayed, ≤3600 very-delayed, ≤7200 hour-delayed, ≤21600 warning,
≤86400 critical, ≤172800 day-delayed, ≤259200 multi-day, ≤345600
three-day, ≤432000 four-day, unavailable above 432000 (so in particular
`classify(100, "BH") = delayed`, shown in the witness). -/
theorem standard_ladder_bands (s : ℚ) (c : Option String) (hc : c ≠ some "LH") :
    (s ≤ 60 → get_status_from_seconds s c = "good") ∧
    (60 < s → s ≤ 600 → get_status_from_seconds s c = "delayed") ∧
    (600 < s → s ≤ 1800 → get_status_from_seconds s c = "long-delayed") ∧
    (1800 < s → s ≤ 3600 → get_status_from_seconds s c = "very-delayed") ∧
    (3600 < s → s ≤ 7200 → get_status_from_seconds s c = "hour-delayed") ∧
    (7200 < s → s ≤ 21600 → get_status_from_seconds s c = "warning") ∧
    (21600 < s → s ≤ 86400 → get_status_from_seconds s c = "critical") ∧
    (86400 < s → s ≤ 172800 → get_status_from_seconds s c = "day-delayed") ∧
    (172800 < s → s ≤ 259200 → get_status_from_seconds s c = "multi-day") ∧
    (259200 < s → s ≤ 345600 → get_status_from_seconds s c = "three-day") ∧
    (345600 < s → s ≤ 432000 → get_status_from_seconds s c = "four-day") ∧
    (432000 < s → get_status_from_seconds s c = "unavailable") := by
  refine ⟨fun h => ?_, fun h1 h2 => ?_, fun h1 h2 => ?_, fun h1 h2 => ?_,
    fun h1 h2 => ?_, fun h1 h2 => ?_, fun h1 h2 => ?_, fun h1 h2 => ?_,
    fun h1 h2 => ?_, fun h1 h2 => ?_, fun h1 h2 => ?_, fun h1 => ?_⟩
  · rw [get_status_eq_other s c hc, lad_le (h.trans (by decide)),
      lad_le (h.trans (by decide)), lad_le (h.trans (by decide)),
      lad_le (h.trans (by decide)), lad_le (h.trans (by decide)),
      lad_le (h.trans (by decide)), lad_le (h.trans (by decide)),
      lad_le (h.trans (by decide)), lad_le (h.trans (by decide)),
      lad_le (h.trans (by decide)), lad_le h]
    rfl
  · rw [get_status_eq_other s c hc, lad_le (h2.trans (by decide)),
      lad_le (h2.trans (by decide)), lad_le (h2.trans (by decide)),
      lad_le (h2.trans (by decide)), lad_le (h2.trans (by decide)),
      lad_le (h2.trans (by decide)), lad_le (h2.trans (by decide)),
      lad_le (h2.trans (by decide)), lad_le (h2.trans (by decide)),
      lad_le h2, lad_gt h1]
  · rw [get_status_eq_other s c hc, lad_le (h2.trans (by decide)),
      lad_le (h2.trans (by decide)), lad_le (h2.trans (by decide)),
      lad_le (h2.trans (by decide)), lad_le (h2.trans (by decide)),
      lad_le (h2.trans (by decide)), lad_le (h2.trans (by decide)),
      lad_le (h2.trans (by decide)), lad_le h2, lad_gt h1]
  · rw [get_status_eq_other s c hc, lad_le (h2.trans (by decide)),
      lad_le (h2.trans (by decide)), lad_le (h2.trans (by decide)),
      lad_le (h2.trans (by decide)), lad_le (h2.trans (by decide)),
      lad_le (h2.trans (by decide)), lad_le (h2.trans (by decide)),
      lad_le h2, lad_gt h1]
  · rw [get_status_eq_other s c hc, lad_le (h2.trans (by decide)),
      lad_le (h2.trans (by decide)), lad_le (h2.trans (by decide)),
      lad_le (h2.trans (by decide)), lad_le (h2.trans (by decide)),
      lad_le (h2.trans (by decide)), lad_le h2, lad_gt h1]
  · rw [get_status_eq_other s c hc, lad_le (h2.trans (by decide)),
      lad_le (h2.trans (by decide)), lad_le (h2.trans (by decide)),
      lad_le (h2.trans (by decide)), lad_le (h2.trans (by decide)),
      lad_le h2, lad_gt h1]
  · rw [get_status_eq_other s c hc, lad_le (h2.trans (by decide)),
      lad_le (h2.trans (by decide)), lad_le (h2.trans (by decide)),
      lad_le (h2.trans (by decide)), lad_le h2, lad_gt h1]
  · rw [get_status_eq_other s c hc, lad_le (h2.trans (by decide)),
      lad_le (h2.trans (by decide)), lad_le (h2.trans (by decide)),
      lad_le h2, lad_gt h1]
  · rw [get_status_eq_other s c hc, lad_le (h2.trans (by decide)),
      lad_le (h2.trans (by decide)), lad_le h2, lad_gt h1]
  · rw [get_status_eq_other s c hc, lad_le (h2.trans (by decide)),
      lad_le h2, lad_gt h1]
  · rw [get_status_eq_other s c hc, lad_le h2, lad_gt h1]
  · rw [get_status_eq_other s c hc, lad_gt h1]

theorem standard_ladder_bands_witness :
    (some "BH" : Option String) ≠ some "LH" ∧ (60 : ℚ) < 100 ∧ (100 : ℚ) ≤ 600 ∧
    get_status_from_seconds 100 (some "BH") = "delayed" :=
  ⟨by decide, by norm_num, by norm_num,
   (standard_ladder_bands 100 (some "BH") (by decide)).2.1 (by norm_num) (by norm_num)⟩

/-- C4: for every channel class and all `0 ≤ s1 ≤ s2`, the status
computed at `s1` is at or below the status computed at `s2` in the
`StatusLevel` order of spec §4.1 — the classifier is monotonically
non-decreasing in elapsed seconds on both ladders. -/
theorem classify_monotone (c : Option String) (s1 s2 : ℚ)
    (h0 : 0 ≤ s1) (h12 : s1 ≤ s2) :
    statusRank (get_status_from_seconds s1 c) ≤
      statusRank (get_status_from_seconds s2 c) := by
  by_cases hc : c = some "LH"
  · subst hc
    rw [get_status_eq_lh, get_status_eq_lh]
    exact ladder_mono _ _ (by decide) s1 s2 h12
  · rw [get_status_eq_other s1 c hc, get_status_eq_other s2 c hc]
    exact ladder_mono _ _ (by decide) s1 s2 h12

theorem classify_monotone_witness :
    (0 : ℚ) ≤ 10 ∧ (10 : ℚ) ≤ 100000 ∧
    statusRank (get_status_from_seconds 10 (some "BH")) ≤
      statusRank (get_status_from_seconds 100000 (some "BH")) :=
  ⟨by norm_num, by norm_num,
   classify_monotone (some "BH") 10 100000 (by norm_num) (by norm_num)⟩

/-! ## Claims C5, C6, C9, C10: registry, dump format, ingestion -/

theorem dtLtB_irrefl (a : PyDateTime) : dtLtB a a = false := by
  simp [dtLtB]

theorem dictSet_all {P : Status → Bool} {m : Registry} {k : String} {v : Status}
    (hm : m.all (fun p => P p.2) = true) (hv : P v = true) :
    (dictSet m k v).all (fun p => P p.2) = true := by
  unfold dictSet
  split_ifs with h
  · rw [List.all_map]
    rw [List.all_eq_true] at hm ⊢
    intro p hp
    simp only [Function.comp_apply]
    split_ifs with hk
    · exact hv
    · exact hm p hp
  · rw [List.all_append]
    simp [hm, hv]

theorem parseFields_clamped (l : List Char) : feedNotEarlierB (parseFields l).2 = true := by
  simp only [parseFields]
  rcases hld : timeparse (pySlice l 18 41) with _ | t1 <;>
    rcases hlf : timeparse (pySlice l 42 65) with _ | t2 <;>
      simp only [hld, hlf, feedNotEarlierB]
  split_ifs with hlt
  · simp [dtLtB_irrefl]
  · simp [hlt]

theorem parseLine_clamped {line : String} {k : String} {d : Status}
    (h : parseLine line = some (k, d)) : feedNotEarlierB d = true := by
  simp only [parseLine] at h
  split_ifs at h with hl
  have h2 := Option.some.inj h
  have hd : (parseFields (rstripNl line.data)).2 = d := congrArg Prod.snd h2
  rw [← hd]
  exact parseFields_clamped _

theorem statusDictRead_all (lines : List String) :
    ∀ reg : Registry, reg.all (fun p => feedNotEarlierB p.2) = true →
      (statusDictRead reg lines).all (fun p => feedNotEarlierB p.2) = true := by
  induction lines with
  | nil => exact fun reg h => h
  | cons line rest ih =>
    intro reg h
    simp only [statusDictRead, List.foldl_cons]
    rcases hp : parseLine line with _ | kd
    · simp only [hp]
      exact ih reg h
    · obtain ⟨k, d⟩ := kd
      simp only [hp]
      exact ih _ (dictSet_all h (parseLine_clamped hp))

/-- C5 counterexample: the ingestion loop performs no clamp — it simply
assigns `last_data = rec.end_time` and `last_feed = utcnow()` — so a feed
record whose `sampleEndTime` lies after the wall-clock update time leaves
a registry record with `lastReceivedTime < lastSampleTime`. -/
theorem clamp_counterexample :
    (ingestStep
        [("AU.ARMA..BHZ.D", ⟨"AU", "ARMA", "", "BHZ", 'D', none, none⟩)]
        ⟨"AU", "ARMA", "", "BHZ", "D", ⟨2024, 1, 2, 3, 10, 0, 0⟩⟩
        ⟨2024, 1, 2, 3, 5, 0, 0⟩).all (fun p => feedNotEarlierB p.2) = false := by
  decide

/-- C5 (amended): only `StatusDict.read` clamps.  Bulk import preserves
the invariant for every registry that already satisfies it, and an
ingestion update preserves it exactly when the update time is not earlier
than the record's `sampleEndTime`. -/
theorem clamp_amended (reg : Registry) (lines : List String) (rec : FeedRecord)
    (now : PyDateTime)
    (hreg : reg.all (fun p => feedNotEarlierB p.2) = true)
    (hnow : dtLtB now rec.end_time = false) :
    (statusDictRead reg lines).all (fun p => feedNotEarlierB p.2) = true ∧
    (ingestStep reg rec now).all (fun p => feedNotEarlierB p.2) = true := by
  refine ⟨statusDictRead_all lines reg hreg, ?_⟩
  unfold ingestStep
  cases hdg : dictGet reg (feedId rec) with
  | none => exact hreg
  | some d => exact dictSet_all hreg (by simp [feedNotEarlierB, hnow])

theorem clamp_amended_witness :
    ([] : Registry).all (fun p => feedNotEarlierB p.2) = true ∧
    dtLtB ⟨2024, 1, 2, 3, 4, 6, 0⟩ ⟨2024, 1, 2, 3, 4, 5, 0⟩ = false ∧
    ((statusDictRead [] [clampLine]).all (fun p => feedNotEarlierB p.2) = true ∧
     (ingestStep [] ⟨"AU", "ARMA", "", "BHZ", "D", ⟨2024, 1, 2, 3, 4, 5, 0⟩⟩
        ⟨2024, 1, 2, 3, 4, 6, 0⟩).all (fun p => feedNotEarlierB p.2) = true) :=
  ⟨by decide, by decide,
   clamp_amended [] [clampLine] ⟨"AU", "ARMA", "", "BHZ", "D", ⟨2024, 1, 2, 3, 4, 5, 0⟩⟩
     ⟨2024, 1, 2, 3, 4, 6, 0⟩ (by decide) (by decide)⟩

/-- C6 counterexample: an ingestion update for a channel key absent from
the registry does not create a record — the `KeyError` is swallowed and
the registry is unchanged, so the key is still missing afterwards. -/
theorem unknown_key_counterexample :
    ingestStep [] ⟨"AU", "ARMA", "", "BHZ", "D", ⟨2024, 1, 2, 3, 4, 5, 0⟩⟩
        ⟨2024, 1, 2, 3, 4, 6, 0⟩ = [] ∧
    dictGet (ingestStep [] ⟨"AU", "ARMA", "", "BHZ", "D", ⟨2024, 1, 2, 3, 4, 5, 0⟩⟩
        ⟨2024, 1, 2, 3, 4, 6, 0⟩) "AU.ARMA..BHZ.D" = none := by
  decide

/-- C6 (amended): an ingestion update for an unknown key never fails and
leaves the registry exactly unchanged (the record is silently discarded,
not inserted). -/
theorem unknown_key_amended (reg : Registry) (rec : FeedRecord) (now : PyDateTime)
    (h : dictGet reg (feedId rec) = none) :
    ingestStep reg rec now = reg := by
  unfold ingestStep
  rw [h]

theorem unknown_key_amended_witness :
    dictGet [] (feedId ⟨"AU", "ARMA", "", "BHZ", "D", ⟨2024, 1, 2, 3, 4, 5, 0⟩⟩) = none ∧
    ingestStep [] ⟨"AU", "ARMA", "", "BHZ", "D", ⟨2024, 1, 2, 3, 4, 5, 0⟩⟩
      ⟨2024, 1, 2, 3, 4, 6, 0⟩ = [] :=
  ⟨by decide, unknown_key_amended [] _ _ (by decide)⟩

/-- C9: `StatusDict.write` emits `str(datetime)` timestamps, which are 19
characters wide when the microsecond field is zero; the resulting line is
57 characters, and `StatusDict.read` skips every line shorter than 65
characters — the record is silently dropped and the write/read round trip
does not reproduce the registry state. -/
theorem write_read_drops_record :
    statusDictWrite secondResReg =
      ["AU ARMA     BHZ D 2024-01-02 03:04:05 2024-01-02 03:04:06"] ∧
    statusDictRead [] (statusDictWrite secondResReg) = [] ∧
    secondResReg ≠ [] := by
  decide

/-- C10: `StatusDict.read` skips exactly the (rstripped) lines shorter
than 65 characters; every longer line is parsed and stored under the key
derived from its fields, with a timestamp field left `None` whenever its
23-character slice fails to parse — the line is neither skipped nor an
error. -/
theorem read_line_tolerance (line : String) :
    ((rstripNl line.data).length < 65 → parseLine line = none) ∧
    (65 ≤ (rstripNl line.data).length →
      parseLine line = some (parseFields (rstripNl line.data)) ∧
      (parseFields (rstripNl line.data)).1 = statusKey (parseFields (rstripNl line.data)).2 ∧
      (timeparse (pySlice (rstripNl line.data) 18 41) = none →
        (parseFields (rstripNl line.data)).2.last_data = none) ∧
      (timeparse (pySlice (rstripNl line.data) 42 65) = none →
        (parseFields (rstripNl line.data)).2.last_feed = none) ∧
      ∀ reg : Registry, statusDictRead reg [line] =
        dictSet reg (parseFields (rstripNl line.data)).1
          (parseFields (rstripNl line.data)).2) := by
  constructor
  · intro h
    simp only [parseLine]
    rw [if_pos h]
  · intro h
    have hnl : ¬ (rstripNl line.data).length < 65 := not_lt.mpr h
    have hp : parseLine line = some (parseFields (rstripNl line.data)) := by
      simp only [parseLine]
      rw [if_neg hnl]
    refine ⟨hp, rfl, ?_, ?_, ?_⟩
    · intro hA
      simp only [parseFields]
      simp [hA]
    · intro hB
      simp only [parseFields]
      simp [hB]
    · intro reg
      simp [statusDictRead, hp]

theorem read_line_tolerance_witness :
    65 ≤ (rstripNl junkLine.data).length ∧
    parseLine junkLine = some (parseFields (rstripNl junkLine.data)) ∧
    timeparse (pySlice (rstripNl junkLine.data) 18 41) = none ∧
    (parseFields (rstripNl junkLine.data)).2.last_data = none ∧
    (parseFields (rstripNl junkLine.data)).2.last_feed = none ∧
    statusDictRead [] [junkLine] =
      dictSet [] (parseFields (rstripNl junkLine.data)).1
        (parseFields (rstripNl junkLine.data)).2 :=
  ⟨by decide, ((read_line_tolerance junkLine).2 (by decide)).1, by decide,
   ((read_line_tolerance junkLine).2 (by decide)).2.2.1 (by decide),
   ((read_line_tolerance junkLine).2 (by decide)).2.2.2.1 (by decide),
   ((read_line_tolerance junkLine).2 (by decide)).2.2.2.2 []⟩

/-! ## Claims C7, C8: the snapshot aggregation -/

theorem addToGroup_channels (sd : StationData) (ct : String) (cd : ChannelData) :
    (addToGroup sd ct cd).channels = sd.channels := by
  unfold addToGroup
  split_ifs <;> rfl

theorem addToGroup_hh (sd : StationData) (ct : String) (cd : ChannelData) :
    (addToGroup sd ct cd).hh = sd.hh ∨ (addToGroup sd ct cd).hh = sd.hh ++ [cd] := by
  unfold addToGroup
  split_ifs <;> simp

theorem addToGroup_hh_of_HH (sd : StationData) (cd : ChannelData) :
    (addToGroup sd "HH" cd).hh = sd.hh ++ [cd] := by
  unfold addToGroup
  rw [if_pos rfl]

theorem finalize_hh (k : String) (d : StationData) : (finalizeStation k d).hh = d.hh := by
  unfold finalizeStation
  split_ifs <;> rfl

theorem finalize_bh (k : String) (d : StationData) : (finalizeStation k d).bh = d.bh := by
  unfold finalizeStation
  split_ifs <;> rfl

theorem finalize_sh (k : String) (d : StationData) : (finalizeStation k d).sh = d.sh := by
  unfold finalizeStation
  split_ifs <;> rfl

theorem finalize_eh (k : String) (d : StationData) : (finalizeStation k d).eh = d.eh := by
  unfold finalizeStation
  split_ifs <;> rfl

theorem finalize_lh (k : String) (d : StationData) : (finalizeStation k d).lh = d.lh := by
  unfold finalizeStation
  split_ifs <;> rfl

theorem finalize_other (k : String) (d : StationData) :
    (finalizeStation k d).other = d.other := by
  unfold finalizeStation
  split_ifs <;> rfl

theorem finalize_channels (k : String) (d : StationData) :
    (finalizeStation k d).channels = d.channels := by
  unfold finalizeStation
  split_ifs <;> rfl

theorem finalize_id (k : String) (d : StationData) : (finalizeStation k d).id = k := by
  unfold finalizeStation
  split_ifs <;> rfl

/-- The second `to_json` loop assigns the primary bucket by the first
non-empty group in the fixed order HH, BH, SH, EH, LH, other. -/
theorem finalize_primary (k : String) (d : StationData) :
    (finalizeStation k d).primaryChannelType =
      (if d.hh ≠ [] then "HH" else if d.bh ≠ [] then "BH" else if d.sh ≠ [] then "SH"
       else if d.eh ≠ [] then "EH" else if d.lh ≠ [] then "LH"
       else if d.other ≠ [] then "other" else "none") := by
  unfold finalizeStation
  split_ifs <;> rfl

theorem mkChannelData_channelType (v : Status) (ld now : PyDateTime) :
    (mkChannelData v ld now).channelType = channelTypeOf v := rfl

/-- Persistence: the station-map update of one record never empties an
existing HH bucket. -/
theorem addRecord_pres {key : String} (coords : List (String × JVal)) (now : PyDateTime)
    (acc : List (String × StationData)) (v : Status) (ld : PyDateTime)
    (h : ∃ e ∈ acc, e.1 = key ∧ e.2.hh ≠ []) :
    ∃ e ∈ addRecord coords now acc v ld, e.1 = key ∧ e.2.hh ≠ [] := by
  obtain ⟨e, he, hk, hhh⟩ := h
  simp only [addRecord, stationsSet]
  have he1 : e ∈ (if acc.any (fun p => p.1 == v.net ++ "_" ++ v.sta) then acc
      else acc ++ [(v.net ++ "_" ++ v.sta, newStationData v coords (v.net ++ "_" ++ v.sta))]) := by
    split_ifs
    · exact he
    · exact List.mem_append_left _ he
  refine ⟨_, List.mem_map_of_mem _ he1, ?_⟩
  by_cases hb : (e.1 == v.net ++ "_" ++ v.sta) = true
  · rw [if_pos hb]
    have hfst : e.1 = v.net ++ "_" ++ v.sta := by simpa using hb
    refine ⟨by simp [← hfst, hk], ?_⟩
    rcases addToGroup_hh { e.2 with channels := e.2.channels ++ [mkChannelData v ld now] }
        (mkChannelData v ld now).channelType (mkChannelData v ld now) with h1 | h1 <;>
      simp only [h1] <;> simp [hhh]
  · rw [if_neg hb]
    exact ⟨hk, hhh⟩

/-- Establishment: processing a record whose channel class is `"HH"`
leaves the station's HH bucket non-empty. -/
theorem addRecord_establish (coords : List (String × JVal)) (now : PyDateTime)
    (acc : List (String × StationData)) (v : Status) (ld : PyDateTime)
    (hct : channelTypeOf v = "HH") :
    ∃ e ∈ addRecord coords now acc v ld, e.1 = v.net ++ "_" ++ v.sta ∧ e.2.hh ≠ [] := by
  simp only [addRecord, stationsSet]
  have hcdct : (mkChannelData v ld now).channelType = "HH" := by
    rw [mkChannelData_channelType, hct]
  by_cases hin : (acc.any fun p => p.1 == v.net ++ "_" ++ v.sta) = true
  · rw [if_pos hin]
    obtain ⟨e, he, hbe⟩ := List.any_eq_true.mp hin
    refine ⟨_, List.mem_map_of_mem _ he, ?_⟩
    rw [if_pos hbe]
    refine ⟨rfl, ?_⟩
    rw [hcdct, addToGroup_hh_of_HH]
    simp
  · rw [if_neg hin]
    refine ⟨_, List.mem_map_of_mem _
      (List.mem_append_right _ (List.mem_singleton_self _)), ?_⟩
    rw [if_pos (by simp)]
    refine ⟨rfl, ?_⟩
    rw [hcdct, addToGroup_hh_of_HH]
    simp

theorem buildStations_pres (coords : List (String × JVal)) (now : PyDateTime)
    {key : String} :
    ∀ (reg : Registry) (acc out : List (String × StationData)),
      (∃ e ∈ acc, e.1 = key ∧ e.2.hh ≠ []) →
      buildStations coords now reg acc = some out →
      ∃ e ∈ out, e.1 = key ∧ e.2.hh ≠ [] := by
  intro reg
  induction reg with
  | nil =>
    intro acc out h hb
    simp only [buildStations] at hb
    obtain rfl := Option.some.inj hb
    exact h
  | cons p rest ih =>
    intro acc out h hb
    obtain ⟨k1, v1⟩ := p
    simp only [buildStations] at hb
    cases hld : v1.last_data with
    | none => rw [hld] at hb; cases hb
    | some ld =>
      rw [hld] at hb
      exact ih _ _ (addRecord_pres coords now acc v1 ld h) hb

theorem buildStations_hh (coords : List (String × JVal)) (now : PyDateTime)
    {v : Status} (hct : channelTypeOf v = "HH") :
    ∀ (reg : Registry) (acc out : List (String × StationData)) (k0 : String),
      (k0, v) ∈ reg →
      buildStations coords now reg acc = some out →
      ∃ e ∈ out, e.1 = v.net ++ "_" ++ v.sta ∧ e.2.hh ≠ [] := by
  intro reg
  induction reg with
  | nil => intro acc out k0 hm; cases hm
  | cons p rest ih =>
    intro acc out k0 hm hb
    obtain ⟨k1, v1⟩ := p
    simp only [buildStations] at hb
    rcases List.mem_cons.mp hm with heq | hmem
    · obtain ⟨hk, hv⟩ := Prod.mk.injEq .. |>.mp heq
      subst hv
      cases hld : v.last_data with
      | none => rw [hld] at hb; cases hb
      | some ld =>
        rw [hld] at hb
        exact buildStations_pres coords now rest _ out
          (addRecord_establish coords now acc v ld hct) hb
    · cases hld : v1.last_data with
      | none => rw [hld] at hb; cases hb
      | some ld =>
        rw [hld] at hb
        exact ih _ _ k0 hmem hb

/-- Every channel object stored by the first `to_json` loop is a
`mkChannelData` result. -/
theorem addRecord_channels_inv (P : ChannelData → Prop) (coords : List (String × JVal))
    (now : PyDateTime) (acc : List (String × StationData)) (v : Status) (ld : PyDateTime)
    (hacc : ∀ e ∈ acc, ∀ ch ∈ e.2.channels, P ch)
    (hmk : P (mkChannelData v ld now)) :
    ∀ e ∈ addRecord coords now acc v ld, ∀ ch ∈ e.2.channels, P ch := by
  have hacc1 : ∀ e ∈ (if acc.any (fun p => p.1 == v.net ++ "_" ++ v.sta) then acc
      else acc ++ [(v.net ++ "_" ++ v.sta, newStationData v coords (v.net ++ "_" ++ v.sta))]),
      ∀ ch ∈ e.2.channels, P ch := by
    split_ifs
    · exact hacc
    · intro e he ch hch
      rcases List.mem_append.mp he with h1 | h1
      · exact hacc e h1 ch hch
      · rw [List.mem_singleton] at h1
        subst h1
        simp [newStationData] at hch
  intro e he ch hch
  simp only [addRecord, stationsSet] at he
  obtain ⟨e0, he0, rfl⟩ := List.mem_map.mp he
  by_cases hb : (e0.1 == v.net ++ "_" ++ v.sta) = true
  · rw [if_pos hb] at hch
    rw [addToGroup_channels] at hch
    rcases List.mem_append.mp hch with h1 | h1
    · exact hacc1 e0 he0 ch h1
    · rw [List.mem_singleton] at h1
      subst h1
      exact hmk
  · rw [if_neg hb] at hch
    exact hacc1 e0 he0 ch hch

theorem buildStations_channels (coords : List (String × JVal)) (now : PyDateTime)
    (P : ChannelData → Prop) (hmk : ∀ v ld, P (mkChannelData v ld now)) :
    ∀ (reg : Registry) (acc out : List (String × StationData)),
      (∀ e ∈ acc, ∀ ch ∈ e.2.channels, P ch) →
      buildStations coords now reg acc = some out →
      ∀ e ∈ out, ∀ ch ∈ e.2.channels, P ch := by
  intro reg
  induction reg with
  | nil =>
    intro acc out h hb
    simp only [buildStations] at hb
    obtain rfl := Option.some.inj hb
    exact h
  | cons p rest ih =>
    intro acc out h hb
    obtain ⟨k1, v1⟩ := p
    simp only [buildStations] at hb
    cases hld : v1.last_data with
    | none => rw [hld] at hb; cases hb
    | some ld =>
      rw [hld] at hb
      exact ih _ _ (addRecord_channels_inv P coords now acc v1 ld h (hmk v1 ld)) hb

/-- C7: each station's primary bucket is the first non-empty class bucket
in the fixed priority order HH, BH, SH, EH, LH, other; in particular
every station owning at least one HH-class channel record reports
`primaryChannelType = "HH"` regardless of latencies. -/
theorem primary_bucket_priority (coords : List (String × JVal)) (now : PyDateTime)
    (reg : Registry) (sts : List StationOut)
    (hjson : to_json coords now reg = some sts) :
    (∀ st ∈ sts, st.primaryChannelType =
      (if st.hh ≠ [] then "HH" else if st.bh ≠ [] then "BH" else if st.sh ≠ [] then "SH"
       else if st.eh ≠ [] then "EH" else if st.lh ≠ [] then "LH"
       else if st.other ≠ [] then "other" else "none")) ∧
    (∀ k v, (k, v) ∈ reg → channelTypeOf v = "HH" →
      ∃ st ∈ sts, st.id = v.net ++ "_" ++ v.sta ∧ st.primaryChannelType = "HH") := by
  simp only [to_json] at hjson
  cases hbs : buildStations coords now reg [] with
  | none => rw [hbs] at hjson; cases hjson
  | some out =>
    rw [hbs] at hjson
    simp only [Option.map_some'] at hjson
    obtain rfl := Option.some.inj hjson
    constructor
    · intro st hst
      obtain ⟨p, hp, rfl⟩ := List.mem_map.mp hst
      rw [finalize_primary, finalize_hh, finalize_bh, finalize_sh, finalize_eh,
        finalize_lh, finalize_other]
    · intro k v hkv hct
      obtain ⟨e, he, hfst, hhh⟩ := buildStations_hh coords now hct reg [] out k hkv hbs
      refine ⟨finalizeStation e.1 e.2, List.mem_map_of_mem _ he, ?_, ?_⟩
      · rw [finalize_id]; exact hfst
      · rw [finalize_primary, if_pos hhh]

theorem primary_bucket_priority_witness :
    to_json [] sampleNow sampleReg = some sampleSts ∧
    ((∀ st ∈ sampleSts, st.primaryChannelType =
      (if st.hh ≠ [] then "HH" else if st.bh ≠ [] then "BH" else if st.sh ≠ [] then "SH"
       else if st.eh ≠ [] then "EH" else if st.lh ≠ [] then "LH"
       else if st.other ≠ [] then "other" else "none")) ∧
    (∀ k v, (k, v) ∈ sampleReg → channelTypeOf v = "HH" →
      ∃ st ∈ sampleSts, st.id = v.net ++ "_" ++ v.sta ∧ st.primaryChannelType = "HH")) :=
  ⟨rfl, primary_bucket_priority [] sampleNow sampleReg sampleSts rfl⟩

/-- C8 counterexample: the per-channel objects of the produced snapshot
carry the field names `last_data`, `last_feed` and `latency` — not the
`lastSampleTime`, `lastFeedTime` and `latencySeconds` of the §6 claim. -/
theorem channel_fields_counterexample :
    ((to_json [] sampleNow sampleReg).map fun sts => sts.map fun st =>
        st.channels.map fun ch => (channelAssoc ch).map Prod.fst) =
      some [[["location", "channel", "type", "channelType", "last_data", "last_feed",
              "latency", "status"],
             ["location", "channel", "type", "channelType", "last_data", "last_feed",
              "latency", "status"]]] ∧
    "lastSampleTime" ∉ ["location", "channel", "type", "channelType", "last_data",
      "last_feed", "latency", "status"] := by
  decide

/-- C8 (amended): every per-channel object of the produced snapshot has
exactly the ordered field names `location, channel, type, channelType,
last_data, last_feed, latency, status`; `last_data` is always an ISO-8601
string and `last_feed` is an ISO-8601 string or null. -/
theorem channel_fields_amended (coords : List (String × JVal)) (now : PyDateTime)
    (reg : Registry) (sts : List StationOut)
    (hjson : to_json coords now reg = some sts) :
    ∀ st ∈ sts, ∀ ch ∈ st.channels,
      (channelAssoc ch).map Prod.fst =
        ["location", "channel", "type", "channelType", "last_data", "last_feed",
         "latency", "status"] ∧
      (∃ t, ch.last_data = some (pyIsoformat t)) ∧
      (ch.last_feed = none ∨ ∃ t, ch.last_feed = some (pyIsoformat t)) := by
  simp only [to_json] at hjson
  cases hbs : buildStations coords now reg [] with
  | none => rw [hbs] at hjson; cases hjson
  | some out =>
    rw [hbs] at hjson
    simp only [Option.map_some'] at hjson
    obtain rfl := Option.some.inj hjson
    intro st hst ch hch
    obtain ⟨p, hp, rfl⟩ := List.mem_map.mp hst
    rw [finalize_channels] at hch
    refine ⟨rfl, ?_⟩
    refine buildStations_channels coords now
      (fun c => (∃ t, c.last_data = some (pyIsoformat t)) ∧
        (c.last_feed = none ∨ ∃ t, c.last_feed = some (pyIsoformat t)))
      (fun v ld => ?_) reg [] out (by simp) hbs p hp ch hch
    cases hlf : v.last_feed with
    | none => exact ⟨⟨ld, rfl⟩, Or.inl (by simp [mkChannelData, hlf])⟩
    | some f => exact ⟨⟨ld, rfl⟩, Or.inr ⟨f, by simp [mkChannelData, hlf]⟩⟩

theorem channel_fields_amended_witness :
    to_json [] sampleNow sampleReg = some sampleSts ∧
    (∀ st ∈ sampleSts, ∀ ch ∈ st.channels,
      (channelAssoc ch).map Prod.fst =
        ["location", "channel", "type", "channelType", "last_data", "last_feed",
         "latency", "status"] ∧
      (∃ t, ch.last_data = some (pyIsoformat t)) ∧
      (ch.last_feed = none ∨ ∃ t, ch.last_feed = some (pyIsoformat t))) :=
  ⟨rfl, channel_fields_amended [] sampleNow sampleReg sampleSts rfl⟩

end Slmon
